import Mathlib

/-!
Verification development for the Ai_Banking fraud-detection repository.

The Python sources are shallowly embedded: dictionaries are projected to the
keys the embedded functions actually read, Python `Decimal`/`float` values are
modelled as rationals, `datetime` objects are modelled as a record of the
projections the code uses (absolute seconds, hour, weekday, day of month, and
the `%Y%m%d` date string), Redis and the Django cache are modelled as explicit
state records that every call threads through, and ambient effects
(`datetime.now()`, generated references) are passed as explicit parameters.
Fallible code returns `Option`.
-/

/-- Enumeration FraudStatus from django_app/common/constants.py. -/
inductive FraudStatus where
  | PENDING
  | INVESTIGATING
  | CONFIRMED
  | FALSE_POSITIVE
  | RESOLVED
deriving DecidableEq, Repr

/-- Enumeration AlertSeverity from django_app/common/constants.py. -/
inductive AlertSeverity where
  | LOW
  | MEDIUM
  | HIGH
  | CRITICAL
deriving DecidableEq, Repr

/-- Enumeration TransactionStatus from django_app/common/constants.py. -/
inductive TransactionStatus where
  | PENDING
  | APPROVED
  | REJECTED
  | FLAGGED
deriving DecidableEq, Repr

/-- Enumeration RiskLevel from django_app/common/constants.py.  The FastAPI
service uses the same four level names as string literals; we share the
enumeration. -/
inductive RiskLevel where
  | LOW
  | MEDIUM
  | HIGH
  | CRITICAL
deriving DecidableEq, Repr

/-- Recommendation strings returned by
FraudScoringService._generate_recommendation in
fastapi_app/services/scoring.py. -/
inductive Recommendation where
  | REJECT
  | REVIEW_REQUIRED
  | FLAG_FOR_MONITORING
  | APPROVE
deriving DecidableEq, Repr

/-- Embedding of a Python `datetime` value: the projections the sources read.
`absSeconds` is the absolute time in seconds (used for differences and
ordering), `hour` the hour of day, `weekday` Monday=0..Sunday=6, `day` the day
of month, and `dateString` the `strftime` rendering with format `%Y%m%d`. -/
structure PyDateTime where
  absSeconds : ℚ
  hour : ℕ
  weekday : ℕ
  day : ℕ
  dateString : String
deriving DecidableEq, Repr

/-- Truthiness of an optional Python string: `None` and the empty string are
falsy. -/
def strTruthy : Option String → Bool
  | none => false
  | some s => s != ""

/-- Modelled from the spec: the Django settings module (core/settings.py) is
not under src/; only django_app/apps/fraud/services.py references
settings.FRAUD_THRESHOLD_HIGH.  The spec gives the default high threshold 0.8. -/
def FRAUD_THRESHOLD_HIGH : ℚ := 8/10

/-- Modelled from the spec: the Django settings module is not under src/.
The spec gives the default medium threshold 0.5. -/
def FRAUD_THRESHOLD_MEDIUM : ℚ := 5/10

/-- Modelled from the spec: the Django settings module is not under src/, so
settings.MAX_TRANSACTION_AMOUNT, read by
FraudDetectionService._apply_fraud_rules, has no value in the sources.  The
spec's high-amount threshold is 50,000 and its scenario requires amount 60,000
to trigger the high_amount rule. -/
def MAX_TRANSACTION_AMOUNT : ℚ := 50000

/-- Function get_risk_level_from_score from django_app/common/utils.py. -/
def get_risk_level_from_score (score : ℚ) : RiskLevel :=
  if score ≥ 8/10 then RiskLevel.CRITICAL
  else if score ≥ 5/10 then RiskLevel.HIGH
  else if score ≥ 3/10 then RiskLevel.MEDIUM
  else RiskLevel.LOW

/-- Threshold FRAUD_THRESHOLD_HIGH from fastapi_app/core/config.py (default
0.8; the FastAPI settings file is under src/). -/
def fastapiFRAUD_THRESHOLD_HIGH : ℚ := 8/10

/-- Threshold FRAUD_THRESHOLD_MEDIUM from fastapi_app/core/config.py (default
0.5). -/
def fastapiFRAUD_THRESHOLD_MEDIUM : ℚ := 5/10

/-- Method FraudScoringService._determine_risk_level from
fastapi_app/services/scoring.py. -/
def determine_risk_level (fraud_score : ℚ) : RiskLevel :=
  if fraud_score ≥ fastapiFRAUD_THRESHOLD_HIGH then RiskLevel.CRITICAL
  else if fraud_score ≥ 7/10 then RiskLevel.HIGH
  else if fraud_score ≥ fastapiFRAUD_THRESHOLD_MEDIUM then RiskLevel.MEDIUM
  else RiskLevel.LOW

/-- Method FraudScoringService._generate_recommendation from
fastapi_app/services/scoring.py.  It branches on the risk-level string only;
the fraud_score argument is unused by the source, so it is omitted here. -/
def generate_recommendation (risk_level : RiskLevel) : Recommendation :=
  match risk_level with
  | RiskLevel.CRITICAL => Recommendation.REJECT
  | RiskLevel.HIGH => Recommendation.REVIEW_REQUIRED
  | RiskLevel.MEDIUM => Recommendation.FLAG_FOR_MONITORING
  | RiskLevel.LOW => Recommendation.APPROVE

/-- Numeric rank of a risk level, used to state monotonicity. -/
def riskRank : RiskLevel → ℕ
  | RiskLevel.LOW => 0
  | RiskLevel.MEDIUM => 1
  | RiskLevel.HIGH => 2
  | RiskLevel.CRITICAL => 3

/-- State of the Django cache as used by calculate_fraud_score_locally: the
per-user transaction counters stored under keys `txn_count_{user_id}`
(django_app/common/utils.py).  Expiry (timeout=3600) is not modelled; the
claims about this function do not mention expiry. -/
structure DjCache where
  txnCount : String → ℕ

/-- Function calculate_fraud_score_locally from django_app/common/utils.py.
The transaction dictionary is projected to the two keys the function reads
(`amount`, `user_id`); `nowHour` is the ambient `datetime.now().hour`.  The
function both returns the score and writes the incremented counter back to the
cache, so the cache is threaded explicitly. -/
def calculate_fraud_score_locally (amount : ℚ) (user_id : Option String)
    (c : DjCache) (nowHour : ℕ) : ℚ × DjCache :=
  let score1 : ℚ :=
    if amount > 50000 then 3/10
    else if amount > 10000 then 2/10
    else 0
  let p :=
    if strTruthy user_id then
      let uid := user_id.getD ""
      let cnt := c.txnCount uid
      let s := if cnt > 10 then score1 + 3/10 else score1
      (s, DjCache.mk (fun k => if k = uid then cnt + 1 else c.txnCount k))
    else
      (score1, c)
  let score3 := if nowHour < 6 ∨ nowHour > 23 then p.1 + 2/10 else p.1
  (min score3 1, p.2)

/-- Row of the Transaction model (django_app/fraud/models.py), restricted to
the columns the embedded services read.  Text columns no claim inspects
(account_number, currency, merchant ids and names, city, ip, device) are
elided; model defaults risk_level=LOW, status=PENDING are kept. -/
structure Txn where
  reference : String
  user_id : String
  amount : ℚ
  country : String
  merchant_category : String
  transaction_date : PyDateTime
  fraud_score : Option ℚ
  risk_level : RiskLevel
  status : TransactionStatus
deriving DecidableEq, Repr

/-- Row of the FraudPattern model (django_app/fraud/models.py): the JSON
`conditions` field is represented by its three recognised keys
(`amount_range`, `merchant_category`, `countries`), each optional. -/
structure FraudPattern where
  pattern_name : String
  amount_range : Option (ℚ × ℚ)
  merchant_categories : Option (List String)
  countries : Option (List String)
  is_active : Bool
  detection_count : ℕ
deriving DecidableEq, Repr

/-- Row of the FraudCase model (django_app/fraud/models.py), restricted to the
columns the embedded services read or write.  The title/description strings
built by f-string formatting are elided; no claim mentions them. -/
structure FraudCase where
  case_number : String
  txn_reference : String
  status : FraudStatus
  severity : AlertSeverity
  assigned_to : Option String
  estimated_loss : ℚ
deriving DecidableEq, Repr

/-- Row of the Alert model (django_app/fraud/models.py).  The foreign key
`transaction` is embedded as the referenced row snapshot; the `case` foreign
key (a Python attribute named `case`, a Lean keyword) is `caseRef`, holding
the linked case number or `none`.  Alert messages are elided (float
formatting; no claim mentions them); triggered rules are kept as the list of
rule identifiers. -/
structure Alert where
  alert_id : String
  transaction : Txn
  severity : AlertSeverity
  triggered_rules : List String
  is_acknowledged : Bool
  caseRef : Option String
  created_at : ℚ
deriving DecidableEq, Repr

/-- Persistent Django state: the table contents the fraud services read and
write. -/
structure ProcState where
  transactions : List Txn
  alerts : List Alert
  cases : List FraudCase
  patterns : List FraudPattern
deriving DecidableEq, Repr

/-- Input dictionary accepted by FraudDetectionService.process_transaction,
projected to the keys the embedded slice reads. -/
structure TxnInput where
  reference : Option String
  user_id : String
  amount : ℚ
  country : String
  merchant_category : String
  transaction_date : Option PyDateTime
deriving DecidableEq, Repr

/-- Method FraudDetectionService._create_transaction
(django_app/apps/fraud/services.py): builds the Transaction row.  `freshRef`
stands for the generated reference (generate_transaction_reference draws a
uuid, an ambient effect passed as a parameter); the Python `or` falls through
to it when the given reference is None or empty. -/
def create_transaction (d : TxnInput) (freshRef : String) (now : PyDateTime) : Txn :=
  { reference := if strTruthy d.reference then d.reference.getD "" else freshRef
    user_id := d.user_id
    amount := d.amount
    country := d.country
    merchant_category := d.merchant_category
    transaction_date := d.transaction_date.getD now
    fraud_score := none
    risk_level := RiskLevel.LOW
    status := TransactionStatus.PENDING }

/-- Method FraudDetectionService._matches_pattern
(django_app/apps/fraud/services.py): every condition present in the pattern
must pass. -/
def matches_pattern (t : Txn) (p : FraudPattern) : Bool :=
  (match p.amount_range with
    | none => true
    | some r => decide (r.1 ≤ t.amount ∧ t.amount ≤ r.2)) &&
  (match p.merchant_categories with
    | none => true
    | some cats => cats.contains t.merchant_category) &&
  (match p.countries with
    | none => true
    | some cs => cs.contains t.country)

/-- Method FraudDetectionService._apply_fraud_rules
(django_app/apps/fraud/services.py).  `txns` is the persisted transaction
table (already containing the row under scoring), `pats` the FraudPattern
table, `now` the ambient timezone.now().  Returns the triggered rule
identifiers in evaluation order together with the updated pattern table
(rule 5 increments detection_count of each matching active pattern).  Rule
messages are elided; no claim mentions them. -/
def apply_fraud_rules (t : Txn) (txns : List Txn) (pats : List FraudPattern)
    (now : PyDateTime) : List String × List FraudPattern :=
  let r1 := if t.amount > MAX_TRANSACTION_AMOUNT then ["high_amount"] else []
  let recent_txns := (txns.filter (fun x =>
    x.user_id = t.user_id ∧
    x.transaction_date.absSeconds ≥ now.absSeconds - 3600)).length
  let r2 := if recent_txns > 10 then ["high_velocity"] else []
  let prior := txns.filter (fun x =>
    x.user_id = t.user_id ∧
    x.transaction_date.absSeconds < t.transaction_date.absSeconds)
  let last_txn := prior.foldl (fun acc x =>
    match acc with
    | none => some x
    | some b =>
      if x.transaction_date.absSeconds > b.transaction_date.absSeconds
      then some x else some b) none
  let r3 :=
    match last_txn with
    | none => []
    | some b =>
      if b.country ≠ t.country ∧
         (t.transaction_date.absSeconds - b.transaction_date.absSeconds) / 3600 < 2
      then ["location_change"] else []
  let r4 :=
    if t.transaction_date.hour < 6 ∨ t.transaction_date.hour > 23
    then ["unusual_time"] else []
  let r5p := pats.foldl (fun (acc : List String × List FraudPattern) p =>
    if p.is_active && matches_pattern t p then
      (acc.1 ++ ["pattern_match"],
       acc.2 ++ [{ p with detection_count := p.detection_count + 1 }])
    else
      (acc.1, acc.2 ++ [p])) ([], [])
  (r1 ++ r2 ++ r3 ++ r4 ++ r5p.1, r5p.2)

/-- Method FraudDetectionService._determine_severity
(django_app/apps/fraud/services.py). -/
def determine_severity (fraud_score : ℚ) (triggered_rules : List String) :
    AlertSeverity :=
  if fraud_score ≥ 9/10 ∨ triggered_rules.length ≥ 3 then AlertSeverity.CRITICAL
  else if fraud_score ≥ 7/10 ∨ triggered_rules.length ≥ 2 then AlertSeverity.HIGH
  else if fraud_score ≥ 5/10 then AlertSeverity.MEDIUM
  else AlertSeverity.LOW

/-- Suffix of the last `n` characters of a string, embedding Python's
`s[-n:]`. -/
def strTakeRight (s : String) (n : ℕ) : String :=
  ((s.toList).drop (s.toList.length - n)).asString

/-- Method FraudDetectionService._create_fraud_case
(django_app/apps/fraud/services.py): unconditionally appends a new PENDING
FraudCase for the alert's transaction to the case table.  The case number is
`CASE-` ++ today's %Y%m%d date ++ `-` ++ the last 8 characters of the
transaction reference. -/
def create_fraud_case (a : Alert) (cases : List FraudCase) (now : PyDateTime) :
    List FraudCase :=
  cases ++ [{ case_number :=
                "CASE-" ++ now.dateString ++ "-" ++ strTakeRight a.transaction.reference 8
              txn_reference := a.transaction.reference
              status := FraudStatus.PENDING
              severity := a.severity
              assigned_to := none
              estimated_loss := a.transaction.amount }]

/-- Method FraudDetectionService._create_alert
(django_app/apps/fraud/services.py): creates the Alert row (its `case` link
is left unset by the source) and, when the computed severity is HIGH or
CRITICAL, also calls _create_fraud_case.  Returns the updated alert and case
tables. -/
def create_alert (t : Txn) (triggered_rules : List String) (fraud_score : ℚ)
    (alerts : List Alert) (cases : List FraudCase) (now : PyDateTime) :
    List Alert × List FraudCase :=
  let sev := determine_severity fraud_score triggered_rules
  let a : Alert :=
    { alert_id := "ALERT-" ++ t.reference
      transaction := t
      severity := sev
      triggered_rules := triggered_rules
      is_acknowledged := false
      caseRef := none
      created_at := now.absSeconds }
  let cases2 :=
    if sev = AlertSeverity.HIGH ∨ sev = AlertSeverity.CRITICAL
    then create_fraud_case a cases now
    else cases
  (alerts ++ [a], cases2)

/-- Result of one process_transaction call: the new persistent state, the
updated local-scoring cache, the saved transaction row, the triggered rules
and the fraud score. -/
structure ProcResult where
  state : ProcState
  cache : DjCache
  txn : Txn
  rules : List String
  score : ℚ

/-- Method FraudDetectionService.process_transaction
(django_app/apps/fraud/services.py).  `mlScore` is the ML service outcome:
`some s` embeds a 200 response with fraud_score s, `none` embeds an
unavailable service (non-200 or transport error), in which case the local
fallback calculate_fraud_score_locally runs on the prepared features (whose
`user_id` and `amount` come from the created row) with the ambient hour
`now.hour`.  The remaining steps follow the source: create the row, score,
apply rules, set risk level and status from the thresholds, save, and create
an alert when the score reaches the medium threshold or any rule triggered. -/
def process_transaction (d : TxnInput) (mlScore : Option ℚ) (st : ProcState)
    (c : DjCache) (now : PyDateTime) (freshRef : String) : ProcResult :=
  let t0 := create_transaction d freshRef now
  let txns1 := st.transactions ++ [t0]
  let sc :=
    match mlScore with
    | some s => (s, c)
    | none => calculate_fraud_score_locally t0.amount (some t0.user_id) c now.hour
  let fraud_score := sc.1
  let rp := apply_fraud_rules t0 txns1 st.patterns now
  let t1 := { t0 with
    fraud_score := some fraud_score
    risk_level := get_risk_level_from_score fraud_score
    status :=
      if fraud_score ≥ FRAUD_THRESHOLD_HIGH then TransactionStatus.REJECTED
      else if fraud_score ≥ FRAUD_THRESHOLD_MEDIUM then TransactionStatus.FLAGGED
      else TransactionStatus.APPROVED }
  let txns2 := st.transactions ++ [t1]
  let ac :=
    if fraud_score ≥ FRAUD_THRESHOLD_MEDIUM ∨ rp.1 ≠ []
    then create_alert t1 rp.1 fraud_score st.alerts st.cases now
    else (st.alerts, st.cases)
  { state :=
      { transactions := txns2
        alerts := ac.1
        cases := ac.2
        patterns := rp.2 }
    cache := sc.2
    txn := t1
    rules := rp.1
    score := fraud_score }

/-- Insertion into a list sorted by strictly greater created_at first, used to
embed the Django `order_by('-created_at')` of the rescan task. -/
def insertByCreatedDesc (a : Alert) : List Alert → List Alert
  | [] => [a]
  | b :: bs =>
    if a.created_at > b.created_at then a :: b :: bs
    else b :: insertByCreatedDesc a bs

/-- Sorting by descending created_at, used to embed `order_by('-created_at')`. -/
def sortByCreatedDesc : List Alert → List Alert
  | [] => []
  | a :: rest => insertByCreatedDesc a (sortByCreatedDesc rest)

/-- Task process_pending_alerts from django_app/fraud/tasks.py: take the 50
most recent unacknowledged HIGH/CRITICAL alerts; for each one older than 30
minutes with no linked case, call _create_fraud_case.  The source never sets
the alert's `case` link, so the alert table is unchanged. -/
def process_pending_alerts (st : ProcState) (now : PyDateTime) : ProcState :=
  let pending :=
    (sortByCreatedDesc (st.alerts.filter (fun a =>
      !a.is_acknowledged &&
      (a.severity = AlertSeverity.HIGH ∨ a.severity = AlertSeverity.CRITICAL)))).take 50
  pending.foldl (fun s a =>
    if (now.absSeconds - a.created_at) / 60 > 30 ∧ a.caseRef = none then
      { s with cases := create_fraud_case a s.cases now }
    else s) st

/-- Method FraudCaseService.assign_case (django_app/apps/fraud/services.py),
restricted to its effect on the fetched case row: it sets assigned_to and
sets status to INVESTIGATING, with no guard on the current status. -/
def assign_case (cs : FraudCase) (user : String) : FraudCase :=
  { cs with assigned_to := some user, status := FraudStatus.INVESTIGATING }

/-- Validated TransactionInput schema of the FastAPI service
(fastapi_app/schemas/transaction.py), as the endpoints pass it to
extract_features via `transaction.dict()`: every declared key is present and
an optional field omitted from the request surfaces as None (the
transaction_date validator replaces None by now, which extract_features also
does itself).  `city` is declared by the schema but never read by
extract_features. -/
structure TransactionInput where
  user_id : String
  amount : ℚ
  currency : String
  transaction_type : String
  merchant_id : Option String
  merchant_category : Option String
  country : Option String
  city : Option String
  device_id : Option String
  transaction_date : Option PyDateTime
deriving DecidableEq, Repr

/-- State of Redis as used by FeatureEngineer
(fastapi_app/ml/preprocess.py), with the keys projected per user, merchant
and device: `velocity:{u}:1h` is `count1h u`, `velocity:{u}:24h` is
`count24h u`, `velocity:{u}:amount:24h` is `amount24h u`,
`merchant_risk:{m}` is `merchantRisk m`, `device_risk:{d}` is `deviceRisk d`
and `user_country:{u}` is `homeCountry u`.  Expiry side effects (expire,
setex TTL) are not modelled; the claims over this code assume no window
expiry.  The store is assumed available (the degraded zero-velocity branch on
redis errors is outside every claim). -/
structure RedisState where
  count1h : String → ℕ
  count24h : String → ℕ
  amount24h : String → ℚ
  merchantRisk : String → Option ℚ
  deviceRisk : String → Option ℚ
  homeCountry : String → Option String

/-- Velocity feature group returned by
FeatureEngineer._calculate_velocity_features. -/
structure VelocityFeatures where
  txn_count_1h : ℕ
  txn_count_24h : ℕ
  txn_amount_24h : ℚ
  avg_txn_amount_24h : ℚ
deriving DecidableEq, Repr

/-- Method FeatureEngineer._calculate_velocity_features
(fastapi_app/ml/preprocess.py): reads the three counters, then increments the
1h and 24h transaction counts.  Note that the source reads the cumulative
amount key `velocity:{u}:amount:24h` but no code in the repository ever
writes it. -/
def calculate_velocity_features (user_id : String) (r : RedisState) :
    VelocityFeatures × RedisState :=
  let c1 := r.count1h user_id
  let c24 := r.count24h user_id
  let am := r.amount24h user_id
  let r1 :=
    { r with
      count1h := fun k => if k = user_id then c1 + 1 else r.count1h k
      count24h := fun k => if k = user_id then c24 + 1 else r.count24h k }
  ({ txn_count_1h := c1
     txn_count_24h := c24
     txn_amount_24h := am
     avg_txn_amount_24h := am / (max c24 1 : ℕ) }, r1)

/-- Method FeatureEngineer._categorize_amount (fastapi_app/ml/preprocess.py). -/
def categorize_amount (amount : ℚ) : ℕ :=
  if amount < 10 then 0
  else if amount < 100 then 1
  else if amount < 1000 then 2
  else if amount < 10000 then 3
  else 4

/-- Embedding of Python str.lower(), mapping Char.toLower over the
characters (String.toLower is byte-recursive and does not reduce under
kernel evaluation; this character-list version is extensionally the same on
our inputs). -/
def pyLower (s : String) : String := String.mk (s.data.map Char.toLower)

/-- Category code table of FeatureEngineer._encode_merchant_category
(fastapi_app/ml/preprocess.py), applied to the lower-cased category; unknown
categories map to 0. -/
def categoryCode (c : String) : ℕ :=
  if pyLower c = "grocery" then 1
  else if pyLower c = "retail" then 2
  else if pyLower c = "restaurant" then 3
  else if pyLower c = "gas" then 4
  else if pyLower c = "online" then 5
  else if pyLower c = "travel" then 6
  else if pyLower c = "entertainment" then 7
  else if pyLower c = "healthcare" then 8
  else if pyLower c = "utilities" then 9
  else if pyLower c = "unknown" then 0
  else 0

/-- Method FeatureEngineer._encode_merchant_category: `category.lower()`
raises AttributeError when the category is None, embedded as `none`. -/
def encode_merchant_category : Option String → Option ℕ
  | none => none
  | some c => some (categoryCode c)

/-- Method FeatureEngineer._get_merchant_risk_score
(fastapi_app/ml/preprocess.py): falsy merchant id or uncached merchant give
the neutral 0.5. -/
def get_merchant_risk_score (merchant_id : Option String) (r : RedisState) : ℚ :=
  if !strTruthy merchant_id then 1/2
  else
    match r.merchantRisk (merchant_id.getD "") with
    | some s => s
    | none => 1/2

/-- Method FeatureEngineer._encode_country (fastapi_app/ml/preprocess.py):
the placeholder high-risk set is the literal list XX, YY, ZZ. -/
def encode_country (country : Option String) : ℕ :=
  if country = some "XX" ∨ country = some "YY" ∨ country = some "ZZ" then 3
  else if strTruthy country then 1
  else 0

/-- Method FeatureEngineer._check_foreign_transaction
(fastapi_app/ml/preprocess.py): first occurrence seeds the home country and
is not foreign. -/
def check_foreign_transaction (user_id : String) (country : Option String)
    (r : RedisState) : ℕ × RedisState :=
  if user_id == "" || !strTruthy country then (0, r)
  else
    let c := country.getD ""
    match r.homeCountry user_id with
    | some hc => ((if hc ≠ c then 1 else 0), r)
    | none =>
      (0, { r with homeCountry := fun k => if k = user_id then some c else r.homeCountry k })

/-- Method FeatureEngineer._get_device_risk_score
(fastapi_app/ml/preprocess.py): falsy device id gives 0.5, an uncached device
0.3. -/
def get_device_risk_score (device_id : Option String) (r : RedisState) : ℚ :=
  if !strTruthy device_id then 1/2
  else
    match r.deviceRisk (device_id.getD "") with
    | some s => s
    | none => 3/10

/-- Method FeatureEngineer._encode_transaction_type
(fastapi_app/ml/preprocess.py). -/
def encode_transaction_type (t : String) : ℕ :=
  if pyLower t = "payment" then 1
  else if pyLower t = "transfer" then 2
  else if pyLower t = "withdrawal" then 3
  else if pyLower t = "deposit" then 4
  else if pyLower t = "purchase" then 5
  else 0

/-- Feature dictionary built by FeatureEngineer.extract_features.  The
real-valued feature `log_amount = np.log1p(amount)` is elided (it is
irrational and no claim mentions it); the velocity group is present exactly
when the user id is truthy, mirroring the conditional `features.update`. -/
structure Features where
  amount : ℚ
  amount_bin : ℕ
  hour : ℕ
  day_of_week : ℕ
  is_weekend : ℕ
  is_night : ℕ
  day_of_month : ℕ
  velocity : Option VelocityFeatures
  merchant_category_encoded : ℕ
  merchant_risk_score : ℚ
  country_encoded : ℕ
  is_foreign_transaction : ℕ
  device_risk_score : ℚ
  transaction_type_encoded : ℕ
deriving DecidableEq, Repr

/-- Method FeatureEngineer.extract_features (fastapi_app/ml/preprocess.py):
builds the feature dictionary in source order, incrementing the velocity
counters on the way.  `now` is the ambient datetime.now() used when no
transaction date is given.  A None merchant category makes
`category.lower()` raise AttributeError, embedded as result `none`; the
velocity increment has already happened at that point, so the updated store
is returned in either case. -/
def extract_features (t : TransactionInput) (r : RedisState) (now : PyDateTime) :
    Option Features × RedisState :=
  let amount := t.amount
  let amount_bin := categorize_amount amount
  let txn_date := t.transaction_date.getD now
  let v :=
    if t.user_id != "" then
      let vr := calculate_velocity_features t.user_id r
      (some vr.1, vr.2)
    else (none, r)
  let r1 := v.2
  match encode_merchant_category t.merchant_category with
  | none => (none, r1)
  | some mce =>
    let mrs := get_merchant_risk_score t.merchant_id r1
    let ce := encode_country t.country
    let ft := check_foreign_transaction t.user_id t.country r1
    let r2 := ft.2
    let drs := get_device_risk_score t.device_id r2
    let tte := encode_transaction_type t.transaction_type
    (some
      { amount := amount
        amount_bin := amount_bin
        hour := txn_date.hour
        day_of_week := txn_date.weekday
        is_weekend := if txn_date.weekday ≥ 5 then 1 else 0
        is_night := if txn_date.hour < 6 ∨ txn_date.hour > 22 then 1 else 0
        day_of_month := txn_date.day
        velocity := v.1
        merchant_category_encoded := mce
        merchant_risk_score := mrs
        country_encoded := ce
        is_foreign_transaction := ft.1
        device_risk_score := drs
        transaction_type_encoded := tte }, r2)

/-- Iterated feature extraction: fold extract_features over a list of inputs,
threading the Redis state. -/
def runExtracts (inputs : List TransactionInput) (r : RedisState)
    (now : PyDateTime) : RedisState :=
  inputs.foldl (fun s t => (extract_features t s now).2) r

/-- Fresh Redis store: zero counters, nothing cached. -/
def freshRedis : RedisState :=
  ⟨fun _ => 0, fun _ => 0, fun _ => 0, fun _ => none, fun _ => none, fun _ => none⟩

/-- Fresh Django cache: no transaction counters set (cache.get default 0). -/
def freshDjCache : DjCache := ⟨fun _ => 0⟩

/-- Empty Django database state. -/
def emptyProcState : ProcState := ⟨[], [], [], []⟩

/-- Concrete instant: noon of 2026-01-01. -/
def day1 : PyDateTime := ⟨0, 12, 3, 1, "20260101"⟩

/-- Concrete instant 41 minutes after day1, same date. -/
def day1Later : PyDateTime := ⟨2460, 12, 3, 1, "20260101"⟩

/-- Concrete instant on the next date, 2026-01-02. -/
def day2 : PyDateTime := ⟨90000, 13, 4, 2, "20260102"⟩

/-- Concrete transaction row used by the C1 scenario. -/
def c1Txn : Txn :=
  ⟨"TXN20260101AAAA1111", "USER1", 9000, "US", "retail", day1,
   some (95/100), RiskLevel.CRITICAL, TransactionStatus.REJECTED⟩

/-- Concrete HIGH alert for c1Txn with no linked case. -/
def c1Alert : Alert :=
  ⟨"ALERT-TXN20260101AAAA1111", c1Txn, AlertSeverity.HIGH, [], false, none, 0⟩

/-- Concrete FraudCase already open (PENDING) for c1Txn. -/
def c1ExistingCase : FraudCase :=
  ⟨"CASE-20251231-AAAA1111", "TXN20260101AAAA1111", FraudStatus.PENDING,
   AlertSeverity.HIGH, none, 9000⟩

/-- Cases of the table that are active (status PENDING or INVESTIGATING) for
the given transaction reference: the spec's at-most-one-active-case
invariant counts these. -/
def activeCasesFor (cases : List FraudCase) (ref : String) : List FraudCase :=
  cases.filter fun cs =>
    cs.txn_reference == ref &&
    (cs.status == FraudStatus.PENDING || cs.status == FraudStatus.INVESTIGATING)

/-- Concrete transaction row used by the C2 scenario. -/
def c2Txn : Txn :=
  ⟨"TXN20260101BBBB2222", "USER2", 70000, "US", "retail", day1,
   some (6/10), RiskLevel.HIGH, TransactionStatus.FLAGGED⟩

/-- Concrete unacknowledged HIGH alert for c2Txn, created at time 0, with no
linked case. -/
def c2Alert : Alert :=
  ⟨"ALERT-TXN20260101BBBB2222", c2Txn, AlertSeverity.HIGH, ["high_amount"],
   false, none, 0⟩

/-- Django state before the escalation rescans of the C2 scenario. -/
def c2State : ProcState := ⟨[c2Txn], [c2Alert], [], []⟩

/-- Input of the C5 scenario: amount 60000, no prior history; the hour of the
ambient clock is the Fin 24 parameter of c5Now. -/
def c5Input : TxnInput := ⟨some "TXN5REF99", "USER5", 60000, "US", "retail", none⟩

/-- Ambient clock of the C5 scenario with the given hour of day. -/
def c5Now (h : Fin 24) : PyDateTime := ⟨100000, h.val, 2, 15, "20260102"⟩

/-- The transaction row create_transaction builds for the C5 scenario. -/
def c5Txn (h : Fin 24) : Txn :=
  ⟨"TXN5REF99", "USER5", 60000, "US", "retail", c5Now h, none, RiskLevel.LOW,
   TransactionStatus.PENDING⟩

/-- FastAPI input built from the repository's own test_feature_extraction
payload (fastapi_app/tests/test_api.py): all optional fields omitted from the
request, hence None after validation. -/
def c7FailingInput : TransactionInput :=
  ⟨"USER123", 3001/2, "USD", "payment", none, none, none, none, none, none⟩

/-- The same input with a non-None unknown merchant category, exercising the
neutral defaults of the remaining optional fields. -/
def c7OkInput : TransactionInput :=
  { c7FailingInput with merchant_category := some "unknown" }

/-- First concrete extraction input of the C8 scenario (amount 100). -/
def c8In1 : TransactionInput :=
  ⟨"USER8", 100, "USD", "payment", none, some "retail", some "US", none, none, none⟩

/-- Second concrete extraction input of the C8 scenario (amount 200). -/
def c8In2 : TransactionInput :=
  ⟨"USER8", 200, "USD", "payment", none, some "retail", some "US", none, none, none⟩

/-- Projection of the 24h cumulative-amount velocity feature out of an
extraction result; -1 marks a failed extraction or an absent velocity group. -/
def velocityAmountOf : Option Features → ℚ
  | none => -1
  | some f =>
    match f.velocity with
    | none => -1
    | some v => v.txn_amount_24h

/-- Claim C3, counterexample: at fraud score 0.5 the Django mapping returns
HIGH while the FastAPI mapping returns MEDIUM, so the two mappings do not
compute the same level for every score in [0,1]. -/
theorem c3_risk_level_mismatch_at_half :
    get_risk_level_from_score (5/10) ≠ determine_risk_level (5/10) := by
  unfold get_risk_level_from_score determine_risk_level
    fastapiFRAUD_THRESHOLD_HIGH fastapiFRAUD_THRESHOLD_MEDIUM
  norm_num
  decide

/-- Claim C3 (amended): each mapping is a deterministic monotone step
function of the score, but with different thresholds — Django uses
0.8/0.5/0.3 and FastAPI uses 0.8/0.7/0.5 — and on score s they agree exactly
when s < 0.3 or s ≥ 0.7. -/
theorem c3_risk_levels_monotone_agree_iff (s t : ℚ) (hst : s ≤ t) :
    riskRank (get_risk_level_from_score s) ≤ riskRank (get_risk_level_from_score t) ∧
    riskRank (determine_risk_level s) ≤ riskRank (determine_risk_level t) ∧
    (get_risk_level_from_score s = determine_risk_level s ↔ s < 3/10 ∨ 7/10 ≤ s) := by
  unfold get_risk_level_from_score determine_risk_level
    fastapiFRAUD_THRESHOLD_HIGH fastapiFRAUD_THRESHOLD_MEDIUM
  refine ⟨?_, ?_, ?_⟩
  · split_ifs <;> simp [riskRank] <;> linarith
  · split_ifs <;> simp [riskRank] <;> linarith
  · split_ifs <;> simp <;>
      first
        | linarith
        | (left; linarith)
        | (right; linarith)
        | (constructor <;> linarith)

/-- Witness for c3_risk_levels_monotone_agree_iff at s = 0, t = 1. -/
theorem c3_witness :
    riskRank (get_risk_level_from_score 0) ≤ riskRank (get_risk_level_from_score 1) ∧
    riskRank (determine_risk_level 0) ≤ riskRank (determine_risk_level 1) ∧
    (get_risk_level_from_score 0 = determine_risk_level 0 ↔ (0:ℚ) < 3/10 ∨ 7/10 ≤ (0:ℚ)) :=
  c3_risk_levels_monotone_agree_iff 0 1 (by norm_num)

/-- Claim C4: the local fallback score equals the amount bonus (0.3 above
50000, else 0.2 above 10000) plus 0.3 when the subject is present and its
rolling counter exceeds 10, plus 0.2 when the hour is below 6 or above 23,
clamped by min with 1, and the result always lies in [0,1]. -/
theorem c4_fallback_score_formula (amount : ℚ) (user_id : Option String)
    (c : DjCache) (nowHour : ℕ) :
    (calculate_fraud_score_locally amount user_id c nowHour).1 =
      min ((if amount > 50000 then 3/10 else if amount > 10000 then 2/10 else 0) +
           (if strTruthy user_id ∧ c.txnCount (user_id.getD "") > 10 then 3/10 else 0) +
           (if nowHour < 6 ∨ nowHour > 23 then 2/10 else 0)) 1 ∧
    0 ≤ (calculate_fraud_score_locally amount user_id c nowHour).1 ∧
    (calculate_fraud_score_locally amount user_id c nowHour).1 ≤ 1 := by
  simp only [calculate_fraud_score_locally]
  split_ifs <;> simp_all <;> norm_num [min_def]

/-- Claim C6, counterexample: with identical transaction data (amount 100,
user USER6) and identical counter state, the fallback run at wall-clock hour
3 and at hour 12 returns different scores (0.2 versus 0), because the source
reads datetime.now().hour rather than an input. -/
theorem c6_score_depends_on_wall_clock_hour :
    (calculate_fraud_score_locally 100 (some "USER6") freshDjCache 3).1 ≠
    (calculate_fraud_score_locally 100 (some "USER6") freshDjCache 12).1 := by
  norm_num [calculate_fraud_score_locally, freshDjCache, strTruthy, min_def,
    (by decide : ¬("USER6" : String) = "")]

/-- Claim C6 (amended): the fallback is a total function and is deterministic
given the transaction data, the invocation hour, and the counter state
restricted to the subject's own key: two counter states that agree on the
subject's counter yield equal scores. -/
theorem c6_deterministic_given_hour_and_counters (amount : ℚ)
    (user_id : Option String) (c1 c2 : DjCache) (nowHour : ℕ)
    (hc : ∀ u, user_id = some u → c1.txnCount u = c2.txnCount u) :
    (calculate_fraud_score_locally amount user_id c1 nowHour).1 =
    (calculate_fraud_score_locally amount user_id c2 nowHour).1 := by
  cases user_id with
  | none => rfl
  | some u =>
    have h := hc u rfl
    simp only [calculate_fraud_score_locally, Option.getD_some, h]
    split_ifs <;> rfl

/-- Witness for c6_deterministic_given_hour_and_counters: the all-zero cache
against another cache built to agree on the subject's key. -/
theorem c6_witness :
    (calculate_fraud_score_locally 20000 (some "USER6") freshDjCache 10).1 =
    (calculate_fraud_score_locally 20000 (some "USER6") (DjCache.mk fun _ => 0) 10).1 :=
  c6_deterministic_given_hour_and_counters 20000 (some "USER6") freshDjCache
    (DjCache.mk fun _ => 0) 10 (fun _ _ => rfl)

/-- Claim C9, counterexample: assigning a case whose status is the terminal
CONFIRMED forces its status to INVESTIGATING, so assignment does not leave
terminal cases unchanged. -/
theorem c9_assign_overwrites_confirmed_status :
    (assign_case
      ⟨"CASE-20260101-CCCC3333", "TXN9", FraudStatus.CONFIRMED,
       AlertSeverity.HIGH, none, 100⟩ "analyst1").status ≠
      FraudStatus.CONFIRMED := by
  decide

/-- Claim C9 (amended): assign_case sets the assignee and unconditionally
sets the status to INVESTIGATING for every case, whatever its previous
status, terminal or not. -/
theorem c9_assign_case_sets_investigating (cs : FraudCase) (user : String) :
    (assign_case cs user).assigned_to = some user ∧
    (assign_case cs user).status = FraudStatus.INVESTIGATING :=
  ⟨rfl, rfl⟩

/-- Claim C10: process_transaction persists the transaction with a status
that is a step function of the fraud score — REJECTED exactly when the score
reaches the high threshold, FLAGGED exactly when it lies in the
medium-to-high band, and APPROVED exactly below the medium threshold. -/
theorem c10_status_step_function (d : TxnInput) (s : ℚ) (st : ProcState)
    (c : DjCache) (now : PyDateTime) (freshRef : String) :
    ((process_transaction d (some s) st c now freshRef).txn.status =
        TransactionStatus.REJECTED ↔ s ≥ FRAUD_THRESHOLD_HIGH) ∧
    ((process_transaction d (some s) st c now freshRef).txn.status =
        TransactionStatus.FLAGGED ↔ FRAUD_THRESHOLD_MEDIUM ≤ s ∧ s < FRAUD_THRESHOLD_HIGH) ∧
    ((process_transaction d (some s) st c now freshRef).txn.status =
        TransactionStatus.APPROVED ↔ s < FRAUD_THRESHOLD_MEDIUM) := by
  have h : (process_transaction d (some s) st c now freshRef).txn.status =
      (if s ≥ FRAUD_THRESHOLD_HIGH then TransactionStatus.REJECTED
       else if s ≥ FRAUD_THRESHOLD_MEDIUM then TransactionStatus.FLAGGED
       else TransactionStatus.APPROVED) := rfl
  rw [h]
  unfold FRAUD_THRESHOLD_HIGH FRAUD_THRESHOLD_MEDIUM
  split_ifs <;> refine ⟨?_, ?_, ?_⟩ <;> simp_all <;> linarith

/-- Claim C1: the state with one PENDING case for the transaction has one
active case; running _create_fraud_case on a HIGH alert for the same
transaction yields two simultaneously active cases, because the source
performs no existing-active-case check before creating. -/
theorem c1_create_fraud_case_ignores_active_case :
    (activeCasesFor [c1ExistingCase] c1Txn.reference).length = 1 ∧
    (activeCasesFor (create_fraud_case c1Alert [c1ExistingCase] day1)
        c1Txn.reference).length = 2 :=
  ⟨rfl, rfl⟩

/-- Claim C2: one rescan opens a case for the 40-minute-old unacknowledged
HIGH alert, but because _create_fraud_case performs no active-case check and
the created case is never linked back to the alert, a second rescan (here on
the next date, so the generated case number differs) opens a second active
case for the same transaction. -/
theorem c2_rescan_creates_duplicate_case :
    (activeCasesFor (process_pending_alerts c2State day1Later).cases
        c2Txn.reference).length = 1 ∧
    (activeCasesFor
        (process_pending_alerts (process_pending_alerts c2State day1Later) day2).cases
        c2Txn.reference).length = 2 := by
  have hage1 : (day1Later.absSeconds - c2Alert.created_at) / 60 > 30 ∧
      c2Alert.caseRef = none := by
    refine ⟨?_, rfl⟩
    norm_num [day1Later, c2Alert]
  have hage2 : (day2.absSeconds - c2Alert.created_at) / 60 > 30 ∧
      c2Alert.caseRef = none := by
    refine ⟨?_, rfl⟩
    norm_num [day2, c2Alert]
  have hpend : (sortByCreatedDesc (c2State.alerts.filter (fun a =>
      !a.is_acknowledged &&
      (a.severity = AlertSeverity.HIGH ∨ a.severity = AlertSeverity.CRITICAL)))).take 50 =
      [c2Alert] := rfl
  have h1 : process_pending_alerts c2State day1Later =
      { c2State with cases := create_fraud_case c2Alert c2State.cases day1Later } := by
    simp only [process_pending_alerts, hpend, List.foldl_cons, List.foldl_nil,
      if_pos hage1]
  have hpend2 : (sortByCreatedDesc (({ c2State with
      cases := create_fraud_case c2Alert c2State.cases day1Later} : ProcState).alerts.filter
      (fun a => !a.is_acknowledged &&
        (a.severity = AlertSeverity.HIGH ∨ a.severity = AlertSeverity.CRITICAL)))).take 50 =
      [c2Alert] := rfl
  have h2 : process_pending_alerts
      { c2State with cases := create_fraud_case c2Alert c2State.cases day1Later } day2 =
      { c2State with
        cases := create_fraud_case c2Alert
          (create_fraud_case c2Alert c2State.cases day1Later) day2 } := by
    simp only [process_pending_alerts, hpend2, List.foldl_cons, List.foldl_nil,
      if_pos hage2]
  rw [h1, h2]
  exact ⟨rfl, rfl⟩

/-- Claim C7: on the repository's own test_feature_extraction payload — every
optional field omitted, which the endpoint's transaction.dict() hands to
extract_features as None — extraction fails (AttributeError from
`category.lower()` on the None merchant category, embedded as result none)
instead of returning a feature vector; with any non-None merchant category
the remaining absent optional fields do default neutrally (merchant risk 0.5,
device risk 0.5, category code 0). -/
theorem c7_extract_crashes_on_none_merchant_category :
    (extract_features c7FailingInput freshRedis day1).1 = none ∧
    ((extract_features c7OkInput freshRedis day1).1.map
        Features.merchant_risk_score = some (1/2)) ∧
    ((extract_features c7OkInput freshRedis day1).1.map
        Features.device_risk_score = some (1/2)) ∧
    ((extract_features c7OkInput freshRedis day1).1.map
        Features.merchant_category_encoded = some 0) :=
  ⟨rfl, rfl, rfl, rfl⟩

/-- Claim C8, counterexample: after one extraction of amount 100 for USER8 on
a fresh store, the second extraction reports a 24h cumulative amount of 0,
not 100 — the source reads the `velocity:{u}:amount:24h` key but no code
ever increments it. -/
theorem c8_amount_counter_never_incremented :
    velocityAmountOf
      (extract_features c8In2 (extract_features c8In1 freshRedis day1).2 day1).1 = 0 ∧
    (0 : ℚ) ≠ 100 := by
  refine ⟨rfl, ?_⟩
  norm_num

/-- Helper for C8: one extraction for a truthy subject increments that
subject's 1h and 24h counters by one and leaves the cumulative-amount table
untouched (this holds whether or not the extraction then fails on the
merchant category, since the increment precedes that step). -/
theorem extract_features_store_effect (t : TransactionInput) (r : RedisState)
    (now : PyDateTime) (h : t.user_id ≠ "") :
    (extract_features t r now).2.count1h t.user_id = r.count1h t.user_id + 1 ∧
    (extract_features t r now).2.count24h t.user_id = r.count24h t.user_id + 1 ∧
    (extract_features t r now).2.amount24h = r.amount24h := by
  have hb : (t.user_id != "") = true := by
    simpa [bne_iff_ne] using h
  unfold extract_features check_foreign_transaction calculate_velocity_features
  cases t.merchant_category with
  | none => simp [encode_merchant_category, hb]
  | some mc =>
    simp only [encode_merchant_category, hb, if_true]
    split_ifs <;> cases hc : r.homeCountry t.user_id <;> simp [hc, hb]

/-- Claim C8 (amended): with the store available and no window expiry, after
N extractions for one (truthy) subject, the velocity features read by the
next call report transaction count N for both the 1h and 24h windows (the
counter values before that call's own increment) — but the reported 24h
cumulative amount is the store's original value, not the sum of the
processed amounts, because extraction reads the amount key without ever
incrementing it. -/
theorem c8_velocity_counts_read_before_increment
    (inputs : List TransactionInput) (r : RedisState) (now : PyDateTime)
    (u : String) (hu : u ≠ "") (hin : ∀ t ∈ inputs, t.user_id = u) :
    (calculate_velocity_features u (runExtracts inputs r now)).1.txn_count_1h =
      r.count1h u + inputs.length ∧
    (calculate_velocity_features u (runExtracts inputs r now)).1.txn_count_24h =
      r.count24h u + inputs.length ∧
    (calculate_velocity_features u (runExtracts inputs r now)).1.txn_amount_24h =
      r.amount24h u := by
  have key : ∀ (l : List TransactionInput) (s : RedisState), (∀ t ∈ l, t.user_id = u) →
      (runExtracts l s now).count1h u = s.count1h u + l.length ∧
      (runExtracts l s now).count24h u = s.count24h u + l.length ∧
      (runExtracts l s now).amount24h = s.amount24h := by
    intro l
    induction l with
    | nil => intro s _; simp [runExtracts]
    | cons a l ih =>
      intro s hall
      have ha : a.user_id = u := hall a (List.mem_cons_self a l)
      have hstep := extract_features_store_effect a s now (by rw [ha]; exact hu)
      rw [ha] at hstep
      have htail := ih ((extract_features a s now).2)
        (fun t ht => hall t (List.mem_cons_of_mem a ht))
      have hrun : runExtracts (a :: l) s now =
          runExtracts l ((extract_features a s now).2) now := by
        simp [runExtracts]
      rw [hrun]
      refine ⟨?_, ?_, ?_⟩
      · rw [htail.1, hstep.1, List.length_cons]; omega
      · rw [htail.2.1, hstep.2.1, List.length_cons]; omega
      · rw [htail.2.2, hstep.2.2]
  have hk := key inputs r hin
  exact ⟨hk.1, hk.2.1, congrFun hk.2.2 u⟩

/-- Witness for c8_velocity_counts_read_before_increment: two concrete
extractions for USER8 on the fresh store. -/
theorem c8_witness :
    (calculate_velocity_features "USER8"
        (runExtracts [c8In1, c8In2] freshRedis day1)).1.txn_count_1h =
      freshRedis.count1h "USER8" + ([c8In1, c8In2] : List TransactionInput).length ∧
    (calculate_velocity_features "USER8"
        (runExtracts [c8In1, c8In2] freshRedis day1)).1.txn_count_24h =
      freshRedis.count24h "USER8" + ([c8In1, c8In2] : List TransactionInput).length ∧
    (calculate_velocity_features "USER8"
        (runExtracts [c8In1, c8In2] freshRedis day1)).1.txn_amount_24h =
      freshRedis.amount24h "USER8" :=
  c8_velocity_counts_read_before_increment [c8In1, c8In2] freshRedis day1 "USER8"
    (by decide) (by decide)

/-- Helper for C5: the triggered-rule list of process_transaction is
apply_fraud_rules evaluated on the created row against the table with that
row appended. -/
theorem process_transaction_rules_eq (d : TxnInput) (ml : Option ℚ)
    (st : ProcState) (c : DjCache) (now : PyDateTime) (fr : String) :
    (process_transaction d ml st c now fr).rules =
    (apply_fraud_rules (create_transaction d fr now)
      (st.transactions ++ [create_transaction d fr now]) st.patterns now).1 := rfl

/-- Helper for C5: with the ML service down, the saved score is the fallback
score of the created row at the ambient hour. -/
theorem process_transaction_fallback_score_eq (d : TxnInput) (st : ProcState)
    (c : DjCache) (now : PyDateTime) (fr : String) :
    (process_transaction d none st c now fr).score =
    (calculate_fraud_score_locally (create_transaction d fr now).amount
      (some (create_transaction d fr now).user_id) c now.hour).1 := rfl

/-- Helper for C5: the saved risk level is the Django risk mapping applied to
the saved score. -/
theorem process_transaction_risk_eq (d : TxnInput) (ml : Option ℚ)
    (st : ProcState) (c : DjCache) (now : PyDateTime) (fr : String) :
    (process_transaction d ml st c now fr).txn.risk_level =
    get_risk_level_from_score ((process_transaction d ml st c now fr).score) := rfl

/-- Helper for C5: whenever the amount exceeds the configured maximum, rule 1
puts high_amount into the triggered-rule list. -/
theorem apply_fraud_rules_high_amount (t : Txn) (txns : List Txn)
    (pats : List FraudPattern) (now : PyDateTime)
    (hamt : t.amount > MAX_TRANSACTION_AMOUNT) :
    "high_amount" ∈ (apply_fraud_rules t txns pats now).1 := by
  unfold apply_fraud_rules
  dsimp only
  rw [if_pos hamt]
  exact List.mem_append_left _ (List.mem_append_left _ (List.mem_append_left _
    (List.mem_append_left _ (List.mem_cons_self _ _))))

/-- Helper for C5: whenever the saved score reaches the medium threshold or
some rule triggered, process_transaction creates an alert. -/
theorem process_transaction_alerts_nonempty (d : TxnInput) (ml : Option ℚ)
    (st : ProcState) (c : DjCache) (now : PyDateTime) (fr : String)
    (hco : (process_transaction d ml st c now fr).score ≥ FRAUD_THRESHOLD_MEDIUM ∨
           (process_transaction d ml st c now fr).rules ≠ []) :
    (process_transaction d ml st c now fr).state.alerts ≠ [] := by
  unfold process_transaction
  dsimp only
  split
  case isTrue => simp [create_alert]
  case isFalse hneg => exact absurd hco hneg

/-- Claim C5: processing the amount-60000 transaction with no prior history
while the ML service is unavailable (fallback path), at any hour of day, the
fallback score is at least 0.3, the stored risk level is MEDIUM or HIGH, the
repository's recommendation mapping sends that level to FLAG_FOR_MONITORING
or REVIEW_REQUIRED, an alert is created, and the triggered rules include
high_amount. -/
theorem c5_high_amount_scenario (h : Fin 24) :
    3/10 ≤ (process_transaction c5Input none emptyProcState freshDjCache
        (c5Now h) "GEN1").score ∧
    ((process_transaction c5Input none emptyProcState freshDjCache
        (c5Now h) "GEN1").txn.risk_level = RiskLevel.MEDIUM ∨
     (process_transaction c5Input none emptyProcState freshDjCache
        (c5Now h) "GEN1").txn.risk_level = RiskLevel.HIGH) ∧
    (generate_recommendation (process_transaction c5Input none emptyProcState
        freshDjCache (c5Now h) "GEN1").txn.risk_level =
        Recommendation.FLAG_FOR_MONITORING ∨
     generate_recommendation (process_transaction c5Input none emptyProcState
        freshDjCache (c5Now h) "GEN1").txn.risk_level =
        Recommendation.REVIEW_REQUIRED) ∧
    (process_transaction c5Input none emptyProcState freshDjCache
        (c5Now h) "GEN1").state.alerts ≠ [] ∧
    "high_amount" ∈ (process_transaction c5Input none emptyProcState freshDjCache
        (c5Now h) "GEN1").rules := by
  have hct : create_transaction c5Input "GEN1" (c5Now h) = c5Txn h := rfl
  have hscore := process_transaction_fallback_score_eq c5Input emptyProcState
    freshDjCache (c5Now h) "GEN1"
  rw [hct] at hscore
  simp only [show (c5Txn h).amount = 60000 from rfl,
    show (c5Txn h).user_id = "USER5" from rfl,
    show (c5Now h).hour = h.val from rfl] at hscore
  have hrules := process_transaction_rules_eq c5Input none emptyProcState freshDjCache
    (c5Now h) "GEN1"
  rw [hct] at hrules
  have hrisk := process_transaction_risk_eq c5Input none emptyProcState freshDjCache
    (c5Now h) "GEN1"
  rw [hscore] at hrisk
  have hmem : "high_amount" ∈ (process_transaction c5Input none emptyProcState
      freshDjCache (c5Now h) "GEN1").rules := by
    rw [hrules]
    exact apply_fraud_rules_high_amount _ _ _ _
      (by norm_num [c5Txn, MAX_TRANSACTION_AMOUNT])
  have halert := process_transaction_alerts_nonempty c5Input none emptyProcState
    freshDjCache (c5Now h) "GEN1" (Or.inr (List.ne_nil_of_mem hmem))
  by_cases hn : (h.val < 6 ∨ h.val > 23)
  · have hfv : (calculate_fraud_score_locally 60000 (some "USER5") freshDjCache h.val).1 =
        1/2 := by
      norm_num [calculate_fraud_score_locally, strTruthy, freshDjCache, min_def, hn,
        (by decide : ¬("USER5" : String) = "")]
    have hlvl : get_risk_level_from_score ((1:ℚ)/2) = RiskLevel.HIGH := by
      norm_num [get_risk_level_from_score]
    refine ⟨?_, Or.inr ?_, Or.inr ?_, halert, hmem⟩
    · rw [hscore, hfv]; norm_num
    · rw [hrisk, hfv]; exact hlvl
    · rw [hrisk, hfv, hlvl]; rfl
  · have hfv : (calculate_fraud_score_locally 60000 (some "USER5") freshDjCache h.val).1 =
        3/10 := by
      norm_num [calculate_fraud_score_locally, strTruthy, freshDjCache, min_def, hn,
        (by decide : ¬("USER5" : String) = "")]
    have hlvl : get_risk_level_from_score ((3:ℚ)/10) = RiskLevel.MEDIUM := by
      norm_num [get_risk_level_from_score]
    refine ⟨?_, Or.inl ?_, Or.inl ?_, halert, hmem⟩
    · rw [hscore, hfv]
    · rw [hrisk, hfv]; exact hlvl
    · rw [hrisk, hfv, hlvl]; rfl
